import Mathlib

/-!
Verification of the payment-reconciliation and budget-categorization engine
of the documentstore application.

The definitions below are a shallow embedding of the Python source:

* `app/main.py` — transaction matcher (`_tx_match_score`,
  `_tx_candidate_for_llm`, `check_documents_against_bank_csv`) and the
  budget categorizer (`_mapping_category_for_tx`, `_fallback_budget_category`,
  `_build_budget_analysis_payload`).
* `app/legacy_main.py` — the revision actually bound by the routers: the
  analysis-run cache decision inside `analyze_bank_budget`, and
  `_startup_guardrails_and_cleanup`.  Its copies of the matcher and
  categorizer helpers are byte-identical to the ones in `app/main.py`.
* `app/services/bank_budget_ai.py` — the LLM gateway retry loop `_call_llm`
  and the chunked classifier `analyze_budget_transactions_with_llm`.
* `app/services/pipeline.py` — the second-stage OCR-text duplicate hash
  (`_normalize_ocr_text_for_hash`, `_ocr_text_hash`).

Modelling conventions:

* Python strings are Lean `String`s; text is treated as ASCII, matching the
  IBAN / keyword / currency data the engine works on.  Python's falsy `None`
  and `""` for string columns are both modelled as `""` (the code only ever
  tests truthiness or coerces with `str(x or "")`).
* Monetary floats are modelled exactly, in integer cents (`Int`): every
  amount in the system is a two-decimal value, and the only operations the
  code performs on amounts are comparisons against `0` and against the
  `0.02` tolerance, which map to cent comparisons against `0` and `2`.
* Dates are modelled as day ordinals (`Option Int`); `datetime` subtraction
  `.days` becomes integer subtraction and `timedelta(days = n)` becomes `n`.
* Retry sleep durations are modelled in tenths of a second (`Nat`), so the
  source's `0.8 * 2 ** (attempt - 1)` capped at `6.0` seconds becomes
  `8 * 2 ^ (attempt - 1)` capped at `60` tenths.
* SHA-256 digests are modelled by the exact string that the code feeds into
  the hash: the code only ever compares digests for equality, and the digest
  of equal inputs is equal (hash collisions are ignored).
-/

/-! ## Text utilities shared by the matcher and the categorizer -/

/-- Python `\s` for the ASCII range: the whitespace class used by
`re.sub(r"\s+", " ", ...)` and `str.strip()`. -/
def isPyWs (c : Char) : Bool :=
  c = ' ' || c = '\t' || c = '\n' || c = '\r' || c = '\x0b' || c = '\x0c'

/-- Characters kept by `re.sub(r"[^a-z0-9]+", "", ...)`. -/
def isLowerAlnum (c : Char) : Bool :=
  ('a' ≤ c && c ≤ 'z') || ('0' ≤ c && c ≤ '9')

/-- ASCII decimal digits, as kept by `re.sub(r"[^0-9]+", "", ...)`. -/
def isDigitChar (c : Char) : Bool :=
  '0' ≤ c && c ≤ '9'

/-- Characters of the token class `[a-zA-Z0-9]` used by
`re.split(r"[^a-zA-Z0-9]+", ...)` in `_issuer_token_candidates`. -/
def isAsciiAlnum (c : Char) : Bool :=
  ('a' ≤ c && c ≤ 'z') || ('A' ≤ c && c ≤ 'Z') || ('0' ≤ c && c ≤ '9')

/-- `str.lower()` on ASCII text. -/
def lowerStr (s : String) : String :=
  ⟨s.data.map Char.toLower⟩

/-- `str.upper()` on ASCII text. -/
def upperStr (s : String) : String :=
  ⟨s.data.map Char.toUpper⟩

/-- One pass of `re.sub(r"\s+", " ", ...)`: every maximal run of whitespace
becomes a single space.  The boolean records whether the previous character
belonged to a whitespace run. -/
def collapseWsAux : Bool → List Char → List Char
  | _, [] => []
  | prev, c :: rest =>
    if isPyWs c then
      if prev then collapseWsAux true rest else ' ' :: collapseWsAux true rest
    else
      c :: collapseWsAux false rest

/-- `re.sub(r"\s+", " ", s)`. -/
def collapseWs (l : List Char) : List Char :=
  collapseWsAux false l

/-- `str.strip()` on a character list. -/
def stripL (l : List Char) : List Char :=
  ((l.dropWhile isPyWs).reverse.dropWhile isPyWs).reverse

/-- `str.strip()`. -/
def stripStr (s : String) : String :=
  ⟨stripL s.data⟩

/-- `_normalize_text` (`app/main.py`):
`re.sub(r"\s+", " ", str(value or "")).strip().lower()` followed by
`re.sub(r"[^a-z0-9]+", "", raw)`. -/
def normalize_text (s : String) : String :=
  ⟨((stripL (collapseWs s.data)).map Char.toLower).filter isLowerAlnum⟩

/-- `_digits_only` (`app/main.py`): `re.sub(r"[^0-9]+", "", str(value or ""))`. -/
def digits_only (s : String) : String :=
  ⟨s.data.filter isDigitChar⟩

/-- `_normalize_iban` (`app/main.py`):
`re.sub(r"[^a-z0-9]+", "", str(value or "").upper())`.  Note that the input
is upper-cased *before* the lower-case-only character class is applied, so
all ASCII letters are removed and only digits survive. -/
def normalize_iban (s : String) : String :=
  ⟨(s.data.map Char.toUpper).filter isLowerAlnum⟩

/-- Python's `needle in haystack` prefix helper: `needle` is a prefix of the
list. -/
def isPrefixL : List Char → List Char → Bool
  | [], _ => true
  | _ :: _, [] => false
  | a :: as, b :: bs => a == b && isPrefixL as bs

/-- Python's substring test `needle in haystack` on character lists. -/
def isSubL (needle : List Char) : List Char → Bool
  | [] => isPrefixL needle []
  | c :: rest => isPrefixL needle (c :: rest) || isSubL needle rest

/-- Python's substring test `needle in haystack` on strings. -/
def isSub (needle hay : String) : Bool :=
  isSubL needle.data hay.data

/-- Maximal runs of characters satisfying `p`; the model of
`re.split(r"[^...]+", s)` after empty fragments are discarded (every caller
filters the fragments by a positive minimum length). -/
def splitRunsAux (p : Char → Bool) : List Char → List Char → List (List Char)
  | [], acc => if acc.isEmpty then [] else [acc.reverse]
  | c :: rest, acc =>
    if p c then splitRunsAux p rest (c :: acc)
    else if acc.isEmpty then splitRunsAux p rest []
    else acc.reverse :: splitRunsAux p rest []

/-- Token runs of a string under the character class `p`. -/
def splitRuns (p : Char → Bool) (s : String) : List String :=
  (splitRunsAux p s.data []).map (fun l => ⟨l⟩)

/-! ## Transaction matcher (`app/main.py` `_tx_match_score`, identical copy in
`app/legacy_main.py`) -/

/-- The fields of the `Document` ORM row read by the matcher.  Nullable
string columns are modelled as `String` with `""` for `NULL` (the code only
coerces them with `str(x or "")` or tests truthiness); `total_amount` is the
document amount in cents; dates are day ordinals. -/
structure MatchDoc where
  total_amount : Option Int
  currency : String
  document_date : Option Int
  due_date : Option Int
  iban : String
  structured_reference : String
  subject : String
  issuer : String
  category : String
deriving DecidableEq, Repr

/-- The fields of the `BankTransaction` ORM row read by the matcher.
`amount` is in cents (signed; negative = outflow). -/
structure BankTx where
  external_transaction_id : String
  booking_date : Option Int
  amount : Option Int
  currency : String
  counterparty_name : String
  remittance_information : String
  raw_json : String
deriving DecidableEq, Repr

/-- The corporate-suffix / place-name blacklist of `_issuer_token_candidates`. -/
def issuerTokenBlacklist : List String :=
  ["vzw", "bvba", "bvb", "nv", "cv", "az", "the", "shop", "store",
   "gent", "brugge", "belgie", "belgium"]

/-- Deduplication fold of `_issuer_token_candidates`: keep the first
occurrence of each token, skipping blacklisted or short ones. -/
def issuerTokenFold : List String → List String → List String
  | [], _ => []
  | t :: rest, seen =>
    let tl := lowerStr t
    if issuerTokenBlacklist.contains tl || tl.length < 4 then
      issuerTokenFold rest seen
    else if seen.contains tl then
      issuerTokenFold rest seen
    else
      tl :: issuerTokenFold rest (tl :: seen)

/-- `_issuer_token_candidates` (`app/main.py`): split the issuer on
`[^a-zA-Z0-9]+`, keep tokens of length ≥ 4, lower-case them, drop
blacklisted tokens and duplicates, preserving order. -/
def issuer_token_candidates (s : String) : List String :=
  issuerTokenFold ((splitRuns isAsciiAlnum s).filter (fun t => t.length ≥ 4)) []

/-- The tolerance `0.02` of the amount comparison, in cents. -/
def amountToleranceCents : Int := 2

/-- `_tx_match_score` (`app/main.py`): score one transaction against one
document.  Returns `(score, confidence, reason)`; `score = -1` is a
rejection. -/
def tx_match_score (doc : MatchDoc) (tx : BankTx) : Int × String × String :=
  let amount : Int := doc.total_amount.getD 0
  let txAmount : Int := |tx.amount.getD 0|
  if amount ≤ 0 || |txAmount - amount| > amountToleranceCents then
    (-1, "none", "Bedrag matcht niet exact")
  else if doc.currency ≠ "" && tx.currency ≠ "" &&
      upperStr doc.currency ≠ upperStr tx.currency then
    (-1, "none", "Valuta matcht niet")
  else
    let txDate := tx.booking_date
    let docDate := doc.document_date
    let dueDate := doc.due_date
    if txDate.isSome && docDate.isSome &&
        decide (txDate.getD 0 < docDate.getD 0 - 14) then
      (-1, "none", "Transactiedatum te vroeg t.o.v. documentdatum")
    else if txDate.isSome && dueDate.isSome &&
        decide (txDate.getD 0 > dueDate.getD 0 + 365) then
      (-1, "none", "Transactiedatum onrealistisch laat t.o.v. due date")
    else
      let joined := stripStr (tx.counterparty_name ++ " " ++
        tx.remittance_information ++ " " ++ tx.raw_json)
      let joinedNorm := normalize_text joined
      let joinedDigits := digits_only joined
      let refDigits := digits_only doc.structured_reference
      let refNorm := normalize_text doc.structured_reference
      let ibanNorm := normalize_iban doc.iban
      let joinedIbanNorm := normalize_iban joined
      let ibanMatch := ibanNorm ≠ "" && isSub ibanNorm joinedIbanNorm
      let memoMatch0 :=
        (refDigits ≠ "" && isSub refDigits joinedDigits) ||
        (refNorm ≠ "" && isSub refNorm joinedNorm)
      let subjectTokens :=
        (splitRuns isLowerAlnum (lowerStr doc.subject)).filter
          (fun t => t.length ≥ 6)
      let issuerTokens6 :=
        (splitRuns isLowerAlnum (lowerStr doc.issuer)).filter
          (fun t => t.length ≥ 4)
      let memoMatch :=
        memoMatch0 ||
        (subjectTokens.take 4).any (fun t => isSub (normalize_text t) joinedNorm) ||
        (issuerTokens6.take 3).any (fun t => isSub (normalize_text t) joinedNorm)
      let withinThreeMonths :=
        txDate.isSome && docDate.isSome &&
          decide (|txDate.getD 0 - docDate.getD 0| ≤ 93)
      let namePartMatch :=
        ((issuer_token_candidates doc.issuer).take 6).any
          (fun t => isSub (normalize_text t) joinedNorm)
      let strictMatch := ibanMatch && memoMatch
      let fallbackMatch := ibanMatch && withinThreeMonths
      let fallbackNameMatch := withinThreeMonths && namePartMatch
      if !strictMatch && !fallbackMatch && !fallbackNameMatch then
        (-1, "none", "Geen voldoende IBAN/mededeling/naam-match")
      else
        let base : Int × String × String :=
          if strictMatch then
            (120, "high", "Sterke match op bedrag + IBAN + mededeling")
          else if fallbackMatch then
            (80, "medium", "Fallback op bedrag + IBAN + datum binnen 3 maanden")
          else
            (65, "low",
              "Fallback op bedrag + datum binnen 3 maanden + naamdeel in mededeling")
        let dateBonus : Int :=
          if txDate.isSome && dueDate.isSome &&
              decide (txDate.getD 0 ≤ dueDate.getD 0) then 3
          else if txDate.isSome && docDate.isSome &&
              decide (txDate.getD 0 ≥ docDate.getD 0) then 2
          else 0
        let memoBonus : Int := if memoMatch && refDigits ≠ "" then 5 else 0
        (base.1 + dateBonus + memoBonus, base.2.1, base.2.2)

/-- `_tx_candidate_for_llm` (`app/main.py`): the pre-filter for the bounded
LLM fallback — amount within tolerance, no currency mismatch, both dates
present and within 93 days. -/
def tx_candidate_for_llm (doc : MatchDoc) (tx : BankTx) : Bool :=
  let amount : Int := doc.total_amount.getD 0
  let txAmount : Int := |tx.amount.getD 0|
  if amount ≤ 0 || |txAmount - amount| > amountToleranceCents then
    false
  else if doc.currency ≠ "" && tx.currency ≠ "" &&
      upperStr doc.currency ≠ upperStr tx.currency then
    false
  else
    match tx.booking_date, doc.document_date with
    | some txDate, some docDate => |txDate - docDate| ≤ 93
    | _, _ => false

/-! ## Reconciliation pass (`check_documents_against_bank_csv` in
`app/main.py`; the per-document logic in
`_check_documents_against_bank_csv_core` of `app/legacy_main.py` is
identical) -/

/-- The running best candidate of the per-document loop:
`(best_score, best_confidence, best_reason, best_tx)`. -/
def BestState := Int × String × String × Option BankTx

/-- One iteration of `for tx in txs: ... if score > best_score: ...`. -/
def bestStep (doc : MatchDoc) (best : BestState) (tx : BankTx) : BestState :=
  let r := tx_match_score doc tx
  if r.1 > best.1 then (r.1, r.2.1, r.2.2, some tx) else best

/-- The rule-based candidate scan of the reconciliation loop, starting from
`best_score = -1`, `best_confidence = "none"`, `best_tx = None`. -/
def bestRuleCandidate (doc : MatchDoc) (txs : List BankTx) : BestState :=
  txs.foldl (bestStep doc) ((-1 : Int), "none", "", none)

/-- The (post-processed) output of `match_document_payment_with_llm`:
`matched`, the stripped non-empty external transaction id (or `none`), a
confidence label and a reason.  The theorems quantify over arbitrary
verdicts, so no assumption is made about the model. -/
structure LlmMatchVerdict where
  matched : Bool
  external_transaction_id : Option String
  confidence : String
  reason : String
deriving DecidableEq, Repr

/-- The state the loop adopts when it accepts the model's pick:
`best_confidence = str(confidence or "low")`, the "LLM patroonherkenning"
reason, and `best_score = 70 if confidence == "low" else 85`. -/
def llmAcceptState (llm : LlmMatchVerdict) (picked : BankTx) : BestState :=
  let conf := if llm.confidence = "" then "low" else llm.confidence
  let reason := if stripStr llm.reason = "" then "LLM patroonherkenning"
    else "LLM patroonherkenning: " ++ stripStr llm.reason
  (if conf = "low" then 70 else 85, conf, reason, some picked)

/-- The LLM fallback branch of the reconciliation loop: for receipts
(`kasticket`) without a sufficiently strong rule-based candidate, pre-filter
the transactions with `_tx_candidate_for_llm`, consult the model, and accept
its pick at score 70 (`low`) or 85 (otherwise). -/
def llmFallbackStep (doc : MatchDoc) (txs : List BankTx)
    (llm : LlmMatchVerdict) (best : BestState) : BestState :=
  if (best.2.2.2.isNone || best.1 < 60) &&
      lowerStr (stripStr doc.category) = "kasticket" then
    let llmCandidates := txs.filter (tx_candidate_for_llm doc)
    if llmCandidates.isEmpty then best
    else
      match llm.matched, llm.external_transaction_id with
      | true, some ext =>
        match llmCandidates.find? (fun tx => tx.external_transaction_id == ext) with
        | some picked => llmAcceptState llm picked
        | none => best
      | _, _ => best
  else best

/-- The final acceptance decision for one document: the rule-based scan,
the optional LLM fallback, then the `best_score >= 60` threshold.  Returns
the accepted transaction together with its score and confidence, or `none`
when the document is left unmatched. -/
def acceptedBankMatch (doc : MatchDoc) (txs : List BankTx)
    (llm : LlmMatchVerdict) : Option (BankTx × Int × String) :=
  let best := llmFallbackStep doc txs llm (bestRuleCandidate doc txs)
  match best.2.2.2 with
  | some tx => if best.1 < 60 then none else some (tx, best.1, best.2.1)
  | none => none

/-! ## Budget categorizer (`app/main.py` `_mapping_category_for_tx`,
`_fallback_budget_category`, `_build_budget_analysis_payload`; the first two
are byte-identical in `app/legacy_main.py`) -/

/-- A budget transaction as the categorizer sees it (the dict produced by
`bank_transaction_to_out`).  `movement_type` holds the value of
`_tx_movement_type(tx)` — the `movement_type` key, falling back to the
`soortbeweging` CSV field inside `raw_json`; that lookup is folded into the
field itself.  `amount` is in cents. -/
structure BudgetTx where
  external_transaction_id : String
  booking_date : String
  amount : Option Int
  currency : String
  counterparty_name : String
  remittance_information : String
  movement_type : String
deriving DecidableEq, Repr

/-- `_tx_movement_type` (`app/main.py`), with the `raw_json` `soortbeweging`
fallback already resolved into the `movement_type` field. -/
def tx_movement_type (tx : BudgetTx) : String :=
  tx.movement_type

/-- One `bank_csv_mappings` settings row as consumed by the categorizer. -/
structure CategoryMapping where
  keyword : String
  flow : String
  category : String
deriving DecidableEq, Repr

/-- The description text `f"{counterparty} {remittance} {movement_type}".lower()`
scanned for mapping keywords. -/
def mappingDesc (tx : BudgetTx) : String :=
  lowerStr (tx.counterparty_name ++ " " ++ tx.remittance_information ++ " " ++
    tx_movement_type tx)

/-- `re.sub(r"[^a-z0-9]+", "", ...)` as used on the description and keyword. -/
def keepAlnum (s : String) : String :=
  ⟨s.data.filter isLowerAlnum⟩

/-- The normalized keyword `keyword_norm` of a mapping. -/
def mappingKeywordNorm (m : CategoryMapping) : String :=
  keepAlnum (lowerStr (stripStr m.keyword))

/-- `len(keyword_norm or keyword)`: the sort key used to prefer the longest
matching keyword. -/
def mappingKeyLen (m : CategoryMapping) : Nat :=
  let keyword := lowerStr (stripStr m.keyword)
  let keywordNorm := mappingKeywordNorm m
  if keywordNorm ≠ "" then keywordNorm.length else keyword.length

/-- The flow field of a mapping after `str(mapping.get("flow") or "all").strip().lower()`
(Python falsy `""`/`None` becomes `"all"` before stripping). -/
def mappingFlowNorm (m : CategoryMapping) : String :=
  lowerStr (stripStr (if m.flow = "" then "all" else m.flow))

/-- Whether a mapping row participates at all for this transaction: keyword
and category non-empty after stripping, and the keyword found in the
description (raw-lower-case or alphanumeric-normalized containment). -/
def mappingMatchesTx (tx : BudgetTx) (m : CategoryMapping) : Bool :=
  let keyword := lowerStr (stripStr m.keyword)
  let keywordNorm := mappingKeywordNorm m
  let cat := stripStr m.category
  keyword ≠ "" && cat ≠ "" &&
    (isSub keyword (mappingDesc tx) ||
      (keywordNorm ≠ "" && isSub keywordNorm (keepAlnum (mappingDesc tx))))

/-- Whether a matching mapping's flow is compatible (`mflow in {"all", flow}`). -/
def mappingFlowCompat (m : CategoryMapping) (flow : String) : Bool :=
  mappingFlowNorm m = "all" || mappingFlowNorm m = flow

/-- The `candidates` list of `_mapping_category_for_tx`: `(key length,
stripped category)` for every matching, flow-compatible mapping, in input
order. -/
def mappingCandidates (tx : BudgetTx) (mappings : List CategoryMapping)
    (flow : String) : List (Nat × String) :=
  mappings.filterMap (fun m =>
    if mappingMatchesTx tx m && mappingFlowCompat m flow then
      some (mappingKeyLen m, stripStr m.category)
    else none)

/-- The `relaxed_candidates` list: matching mappings whose flow is *not*
compatible. -/
def mappingRelaxedCandidates (tx : BudgetTx) (mappings : List CategoryMapping)
    (flow : String) : List (Nat × String) :=
  mappings.filterMap (fun m =>
    if mappingMatchesTx tx m && !mappingFlowCompat m flow then
      some (mappingKeyLen m, stripStr m.category)
    else none)

/-- Stable insertion for a descending sort on the key: the model of Python's
stable `list.sort(key=lambda x: x[0], reverse=True)` (equal keys keep their
input order; larger keys come first). -/
def insertDesc (x : Nat × String) : List (Nat × String) → List (Nat × String)
  | [] => [x]
  | y :: ys => if y.1 < x.1 then x :: y :: ys else y :: insertDesc x ys

/-- Stable descending sort by the first component. -/
def sortDesc (l : List (Nat × String)) : List (Nat × String) :=
  l.foldr insertDesc []

/-- `_mapping_category_for_tx` (`app/main.py`): the longest flow-compatible
keyword match wins; failing that, the longest flow-incompatible match;
failing that, `None`. -/
def mapping_category_for_tx (tx : BudgetTx) (mappings : List CategoryMapping)
    (flow : String) : Option String :=
  match (sortDesc (mappingCandidates tx mappings flow)).head? with
  | some p => some p.2
  | none =>
    match (sortDesc (mappingRelaxedCandidates tx mappings flow)).head? with
    | some p => some p.2
    | none => none

/-- The flow derived from the transaction's sign:
`"income" if amount >= 0 else "expense"`. -/
def txFlow (tx : BudgetTx) : String :=
  if tx.amount.getD 0 ≥ 0 then "income" else "expense"

/-- `_fallback_budget_category` (`app/main.py`): mapping hit first, then the
deterministic keyword buckets, ending in the catch-all buckets.  Returns
`(flow, category, source)`. -/
def fallback_budget_category (tx : BudgetTx) (mappings : List CategoryMapping) :
    String × String × String :=
  let flow := txFlow tx
  let desc := mappingDesc tx
  match mapping_category_for_tx tx mappings flow with
  | some mapped => (flow, mapped, "mapping")
  | none =>
    let movementNorm := normalize_text (tx_movement_type tx)
    if flow = "expense" &&
        (isSub "aanrekeningbeheerskost" movementNorm ||
          isSub "beheerskost" movementNorm) then
      (flow, "Bankkosten", "rule")
    else if flow = "income" then
      if ["werkgever", "werknemer", "loon", "salary", "payroll", "wedde"].any
          (fun k => isSub k desc) then
        (flow, "Loon", "rule")
      else if ["refund", "terugbetaling"].any (fun k => isSub k desc) then
        (flow, "Terugbetalingen", "rule")
      else
        (flow, "Overige inkomsten", "rule")
    else if ["visa", "mastercard", "maestro"].any (fun k => isSub k desc) then
      (flow, "Kaartuitgaven (VISA/MASTERCARD)", "rule")
    else if ["bankkost", "kosten", "fee", "servicekost"].any
        (fun k => isSub k desc) then
      (flow, "Bankkosten", "rule")
    else
      (flow, "Overige uitgaven", "rule")

/-- One raw entry of `llm_data["transaction_categories"]` (a dict produced
by the model or by a cached run). -/
structure LlmCategoryRow where
  external_transaction_id : String
  category : String
  flow : String
  reason : String
  source : String
deriving DecidableEq, Repr

/-- The normalized value stored in `category_map` for one row. -/
structure NormCatRow where
  category : String
  flow : String
  reason : Option String
  source : Option String
deriving DecidableEq, Repr

/-- Normalization applied when a row is inserted into `category_map`:
strip/lower the fields, `or None` for reason and source. -/
def normCatValue (r : LlmCategoryRow) : NormCatRow :=
  { category := stripStr r.category,
    flow := lowerStr (stripStr r.flow),
    reason := if stripStr r.reason = "" then none else some (stripStr r.reason),
    source := if lowerStr (stripStr r.source) = "" then none
      else some (lowerStr (stripStr r.source)) }

/-- `category_map.get(ext_id)`: rows with an empty stripped id are skipped;
later rows overwrite earlier ones (Python dict assignment), so the *last*
matching row wins. -/
def categoryMapGet (rows : List LlmCategoryRow) (extId : String) :
    Option NormCatRow :=
  ((rows.filter (fun r => stripStr r.external_transaction_id ≠ "")).reverse.find?
    (fun r => stripStr r.external_transaction_id == extId)).map normCatValue

/-- `preferred_set`: the lower-cased stripped non-empty preferred categories. -/
def preferredSet (preferred : List String) : List String :=
  (preferred.map (fun c => lowerStr (stripStr c))).filter (fun c => c ≠ "")

/-- One output row of `_build_budget_analysis_payload` (the fields relevant
to categorization). -/
structure AnalyzedTx where
  external_transaction_id : String
  flow : String
  category : String
  source : String
  reason : Option String
deriving DecidableEq, Repr

/-- The per-transaction category resolution of
`_build_budget_analysis_payload` (`app/main.py`): explicit mapping first;
otherwise keep a non-empty stored classification (re-bucketing `rule`-sourced
categories that fell outside the preferred set); otherwise the deterministic
fallback. -/
def resolveBudgetTx (tx : BudgetTx) (rows : List LlmCategoryRow)
    (mappings : List CategoryMapping) (preferred : List String) : AnalyzedTx :=
  let extId := stripStr tx.external_transaction_id
  let flow := txFlow tx
  let row := categoryMapGet rows extId
  let directMapping := mapping_category_for_tx tx mappings flow
  let category0 := stripStr ((row.map (·.category)).getD "")
  let reason := (row.map (·.reason)).getD none
  let source0 := ((row.bind (·.source)).getD "llm")
  match directMapping with
  | some mapped =>
    { external_transaction_id := extId, flow := flow, category := mapped,
      source := "mapping", reason := reason }
  | none =>
    if category0 ≠ "" then
      let source1 :=
        if ["llm", "mapping", "rule", "manual"].contains source0 then source0
        else "llm"
      let pset := preferredSet preferred
      if !pset.isEmpty && !pset.contains (lowerStr category0) &&
          source1 = "rule" then
        let fb := fallback_budget_category tx mappings
        if fb.2.1 ≠ "" then
          { external_transaction_id := extId, flow := flow,
            category := fb.2.1, source := fb.2.2, reason := reason }
        else
          { external_transaction_id := extId, flow := flow,
            category := category0, source := source1, reason := reason }
      else
        { external_transaction_id := extId, flow := flow,
          category := category0, source := source1, reason := reason }
    else
      let fb := fallback_budget_category tx mappings
      { external_transaction_id := extId, flow := flow, category := fb.2.1,
        source := fb.2.2, reason := reason }

/-- The `analyzed_transactions` list of `_build_budget_analysis_payload`
(`app/main.py`): one resolved row per input transaction, in order.  The
aggregate category/period totals of the payload are not modelled — no claim
refers to them. -/
def build_budget_analysis_rows (txs : List BudgetTx)
    (rows : List LlmCategoryRow) (mappings : List CategoryMapping)
    (preferred : List String) : List AnalyzedTx :=
  txs.map (fun tx => resolveBudgetTx tx rows mappings preferred)

/-! ## Analysis-run cache (`analyze_bank_budget` in `app/legacy_main.py`,
the handler bound to `/api/bank/budget/analyze` by `app/routers/bank.py`) -/

/-- The stored `BankBudgetAnalysisRun` as far as the cache decision reads
it: the parsed `summary_json` list. -/
structure BudgetAnalysisRun where
  summaryPoints : List String
deriving DecidableEq, Repr

/-- One stored `BankBudgetAnalysisTx` child row. -/
structure BudgetAnalysisTxRow where
  external_transaction_id : String
  category : String
  flow : String
  reason : String
  source : String
deriving DecidableEq, Repr

/-- `cached_failed`: `any("fallback actief" in str(p or "").lower() for p in
cached_summary)`. -/
def cachedRunFailed (points : List String) : Bool :=
  points.any (fun p => isSub "fallback actief" (lowerStr p))

/-- What the cached-run branch of `analyze_bank_budget` decides to do:
serve the stored run (re-merged, no model call) or fall through to the
normal recomputation pipeline.  The function is total — the corrupt-cache
path raises nothing, it simply recomputes. -/
inductive BudgetCachePath where
  | useCache
  | recompute
deriving DecidableEq, Repr

/-- The cache decision of `analyze_bank_budget` (`app/legacy_main.py`):
no stored run → recompute; stored run with zero child rows despite a
non-empty transaction payload → treated as corrupt, recompute; stored run
whose summary records a chunk failure (`"fallback actief"`) → recompute;
otherwise serve the cache. -/
def legacyBudgetCachePath (cached : Option BudgetAnalysisRun)
    (cachedRows : List BudgetAnalysisTxRow) (txPayload : List BudgetTx) :
    BudgetCachePath :=
  match cached with
  | none => .recompute
  | some run =>
    if !txPayload.isEmpty && cachedRows.isEmpty then .recompute
    else if cachedRunFailed run.summaryPoints then .recompute
    else .useCache

/-- The transactions the recompute path sends to the model: those without a
direct mapping hit (`analyze_bank_budget`, `app/legacy_main.py`). -/
def legacyUnresolved (txs : List BudgetTx) (mappings : List CategoryMapping) :
    List BudgetTx :=
  txs.filter (fun tx => (mapping_category_for_tx tx mappings (txFlow tx)).isNone)

/-- The chunk size of `analyze_budget_transactions_with_llm`. -/
def llmChunkSize : Nat := 80

/-- The number of LLM gateway invocations (`_call_llm` calls) a cache
decision leads to: zero on a cache hit; on recompute, one call per chunk of
unresolved transactions plus one summary call (none at all when every
transaction is resolved by an explicit mapping, in which case
`analyze_budget_transactions_with_llm` is never entered). -/
def legacyLlmGatewayCalls (path : BudgetCachePath) (txs : List BudgetTx)
    (mappings : List CategoryMapping) : Nat :=
  match path with
  | .useCache => 0
  | .recompute =>
    let n := (legacyUnresolved txs mappings).length
    if n = 0 then 0 else (n + llmChunkSize - 1) / llmChunkSize + 1

/-- The summary marker inserted by `analyze_budget_transactions_with_llm`
when `failed_chunks` is non-zero (`app/services/bank_budget_ai.py`). -/
def chunkFallbackMarker (failedChunks : Nat) : String :=
  "LLM chunk fallback actief: " ++ toString failedChunks ++
    " chunk(s) tijdelijk mislukt; categorieën aangevuld via fallbackregels."

/-- The summary points returned by `analyze_budget_transactions_with_llm`:
the marker is prepended whenever at least one chunk failed.  A run with
failed chunks does *not* raise, so `analyze_bank_budget` still persists the
run (`llm_failed` stays false) — these summary points are exactly what ends
up in the stored run's `summary_json`. -/
def llmChunkSummaryPoints (failedChunks : Nat) (points : List String) :
    List String :=
  if failedChunks ≠ 0 then chunkFallbackMarker failedChunks :: points
  else points

/-! ## LLM gateway retry loop (`_call_llm` in
`app/services/bank_budget_ai.py`; the three provider branches share the
same loop structure) -/

/-- `_should_retry_status`: 408, 409, 429 or any 5xx. -/
def shouldRetryStatus (code : Nat) : Bool :=
  code = 408 || code = 409 || code = 429 || 500 ≤ code

/-- `_retry_delay(attempt)` in tenths of a second:
`min(6.0, 0.8 * (2 ** max(0, attempt - 1)))`. -/
def retryDelayTenths (attempt : Nat) : Nat :=
  min 60 (8 * 2 ^ (attempt - 1))

/-- One HTTP exchange of an attempt: the response status and whether the
JSON extraction of the model output succeeds. -/
structure LlmHttpResponse where
  status : Nat
  contentJsonOk : Bool
deriving DecidableEq, Repr

/-- Whether one attempt of the `_call_llm` loop raises.  Every raise is
caught by the same `except Exception` handler: a retryable status raises the
"tijdelijk onbeschikbaar" `RuntimeError`, `raise_for_status()` raises on any
4xx/5xx, and a malformed body raises from the JSON extraction. -/
def attemptFails (r : LlmHttpResponse) : Bool :=
  shouldRetryStatus r.status || 400 ≤ r.status || !r.contentJsonOk

/-- The observable outcome of one `_call_llm` invocation: whether it
returned (rather than raised after exhausting attempts), how many HTTP
requests were made, and the sleeps (in tenths of a second) between them. -/
structure LlmCallOutcome where
  success : Bool
  attempts : Nat
  sleepsTenths : List Nat
deriving DecidableEq, Repr

/-- The retry loop `for attempt in range(1, max_retries + 1)` of
`_call_llm`, with `fuel` attempts remaining and the current attempt number:
a failed attempt sleeps and retries unless it was the last one, in which
case the error propagates. -/
def callLlmAux (responses : Nat → LlmHttpResponse) (attempt : Nat) :
    Nat → LlmCallOutcome
  | 0 => ⟨false, attempt - 1, []⟩
  | fuel + 1 =>
    if attemptFails (responses attempt) then
      if fuel = 0 then ⟨false, attempt, []⟩
      else
        let rest := callLlmAux responses (attempt + 1) fuel
        ⟨rest.success, rest.attempts, retryDelayTenths attempt :: rest.sleepsTenths⟩
    else ⟨true, attempt, []⟩

/-- `_call_llm` with the given per-attempt responses and `max_retries`
(default 3). -/
def call_llm (responses : Nat → LlmHttpResponse) (maxRetries : Nat := 3) :
    LlmCallOutcome :=
  callLlmAux responses 1 maxRetries

/-! ## Second-stage OCR-text duplicate hash (`app/services/pipeline.py`) -/

/-- The substitution actually performed by
`re.sub(r"\\s+", " ", t)` in `_normalize_ocr_text_for_hash`.  The pattern
`r"\\s+"` is an escaped backslash followed by `s+`: it matches a literal
backslash followed by one or more letters `s`, *not* whitespace.  The
boolean state records that the scanner is consuming the `s`-run of a match
that already emitted its single space. -/
def replaceBackslashSRuns : Bool → List Char → List Char
  | _, [] => []
  | skipping, c :: rest =>
    if skipping && c = 's' then replaceBackslashSRuns true rest
    else if c = '\\' && rest.head? = some 's' then
      ' ' :: replaceBackslashSRuns true rest
    else c :: replaceBackslashSRuns false rest

/-- `_normalize_ocr_text_for_hash` (`app/services/pipeline.py`):
lower-case, apply `re.sub(r"\\s+", " ", t)`, strip. -/
def normalize_ocr_text_for_hash (s : String) : String :=
  stripStr ⟨replaceBackslashSRuns false (lowerStr s).data⟩

/-- `_ocr_text_hash`: `None` for an empty normalized text, otherwise the
SHA-256 of the normalized text — modelled by the normalized text itself
(the code only compares digests for equality). -/
def ocr_text_hash (s : String) : Option String :=
  let norm := normalize_ocr_text_for_hash s
  if norm = "" then none else some norm

/-- The normalization the specification describes for the second-stage
duplicate check — "normalized extracted text (whitespace-collapsed,
lower-cased)".  Stated from the spec's words, to be compared against
`normalize_ocr_text_for_hash`. -/
def specOcrNormalize (s : String) : String :=
  stripStr ⟨collapseWs (lowerStr s).data⟩

/-- The duplicate test of `process_document` (`app/services/pipeline.py`):
a later document is flagged (`duplicate_of` set, reason `"ocr_text"`) when
its `ocr_text_hash` is non-null and equals an earlier document's. -/
def ocrDuplicateDetected (later earlier : String) : Bool :=
  match ocr_text_hash later, ocr_text_hash earlier with
  | some a, some b => a == b
  | _, _ => false

/-! ## Async-job startup recovery (`_startup_guardrails_and_cleanup` in
`app/legacy_main.py`) -/

/-- One `AsyncJob` row, with the columns the recovery update touches or
must leave alone.  Timestamps are day ordinals. -/
structure AsyncJobRow where
  id : String
  job_type : String
  status : String
  processed : Nat
  total : Nat
  error : Option String
  result_json : Option String
  started_at : Option Int
  finished_at : Option Int
deriving DecidableEq, Repr

/-- The per-row effect of
`db.query(AsyncJob).filter(AsyncJob.status == "running").update({...})`:
a running job becomes failed with the restart message and a `finished_at`
timestamp; every other row is untouched. -/
def startupCleanupJob (now : Int) (j : AsyncJobRow) : AsyncJobRow :=
  if j.status = "running" then
    { j with status := "failed",
             error := some "Server restart: job interrupted",
             finished_at := some now }
  else j

/-- `_startup_guardrails_and_cleanup` restricted to its `AsyncJob` update:
the filtered bulk `UPDATE` applied to every stored job row. -/
def startup_guardrails_and_cleanup (now : Int) (jobs : List AsyncJobRow) :
    List AsyncJobRow :=
  jobs.map (startupCleanupJob now)

/-! ## Concrete instances used by the claim theorems, their witnesses and
counterexamples -/

/-- The document of the spec's matcher scenario: `amount=49.99` (4999
cents), `currency=EUR`, `iban=BE68539007547034`,
`document_date=2024-03-01` (day 0), no structured reference, subject or
issuer. -/
def c3doc : MatchDoc :=
  { total_amount := some 4999, currency := "EUR", document_date := some 0,
    due_date := none, iban := "BE68539007547034", structured_reference := "",
    subject := "", issuer := "", category := "factuur" }

/-- The transaction of the spec's matcher scenario: `amount=-49.99`,
`currency=EUR`, `booking_date=2024-03-03` (day 2), counterparty text
containing the document's normalized IBAN. -/
def c3tx : BankTx :=
  { external_transaction_id := "tx-1", booking_date := some 2,
    amount := some (-4999), currency := "EUR",
    counterparty_name := "BE68539007547034", remittance_information := "",
    raw_json := "" }

/-- A candidate transaction identical to `c3tx` except for a mismatched
currency. -/
def c4txUsd : BankTx := { c3tx with external_transaction_id := "bad", currency := "USD" }

/-- A matching candidate with agreeing currency. -/
def c4txEur : BankTx := { c3tx with external_transaction_id := "good" }

/-- A candidate transaction identical to `c3tx` except that it carries no
currency at all. -/
def c10txNoCurrency : BankTx := { c3tx with external_transaction_id := "nocur", currency := "" }

/-- A "no match" model verdict. -/
def llmNoVerdict : LlmMatchVerdict := ⟨false, none, "", ""⟩

/-- A budget transaction with no mapping keyword match (used to drive the
recompute path to the model). -/
def c2tx : BudgetTx :=
  ⟨"t1", "2024-01-02", some (-500), "EUR", "Bakkerij Jan", "brood", ""⟩

/-- A stored analysis child row for `c2tx`. -/
def c2row : BudgetAnalysisTxRow := ⟨"t1", "Boodschappen", "expense", "", "llm"⟩

/-- The stored run a completed pass with one failed chunk persists: its
summary starts with the chunk-failure marker. -/
def c2failedRun : BudgetAnalysisRun := ⟨llmChunkSummaryPoints 1 []⟩

/-- A stored run of a fully successful pass (no failure marker). -/
def c2cleanRun : BudgetAnalysisRun := ⟨["Totaal 12 transacties."]⟩

/-- Responses for the retry counterexample: HTTP 400 (non-retryable) on the
first attempt, HTTP 200 with valid JSON afterwards. -/
def c5responses : Nat → LlmHttpResponse :=
  fun n => if n = 1 then ⟨400, true⟩ else ⟨200, true⟩

/-- Responses that fail on every attempt (HTTP 503). -/
def c5responsesAllFail : Nat → LlmHttpResponse := fun _ => ⟨503, true⟩

/-- An expense-flow mapping whose keyword occurs in `c7tx`'s remittance. -/
def c7mapping : CategoryMapping := ⟨"huur", "expense", "Huur"⟩

/-- An inflow transaction (flow `income`) whose text contains the keyword
of the expense-flow mapping `c7mapping`. -/
def c7tx : BudgetTx :=
  ⟨"t7", "2024-02-01", some 10000, "EUR", "Immo", "huur maart", ""⟩

/-- An income-flow mapping matching `c7tx`, for the amended theorem's
witness. -/
def c7mappingIncome : CategoryMapping := ⟨"immo", "income", "Huuropbrengst"⟩

/-- A `running` job row at the moment of a restart. -/
def c9runningJob : AsyncJobRow :=
  ⟨"j1", "budget-analyze", "running", 3, 10, none, none, some 1, none⟩

/-- A `queued` job row, untouched by the restart recovery. -/
def c9queuedJob : AsyncJobRow :=
  ⟨"j2", "check-bank", "queued", 0, 0, none, none, none, none⟩

/-! ## Helper lemmas -/

theorem mem_insertDesc {a x : Nat × String} {l : List (Nat × String)} :
    a ∈ insertDesc x l ↔ a = x ∨ a ∈ l := by
  induction l with
  | nil => simp [insertDesc]
  | cons y ys ih =>
    simp only [insertDesc]
    by_cases h : y.1 < x.1
    · simp [h]
    · simp only [h, if_false, List.mem_cons, ih]
      tauto

theorem mem_sortDesc {a : Nat × String} {l : List (Nat × String)} :
    a ∈ sortDesc l ↔ a ∈ l := by
  induction l with
  | nil => simp [sortDesc]
  | cons x xs ih =>
    simp only [sortDesc, List.foldr_cons] at *
    rw [mem_insertDesc, ih, List.mem_cons]

theorem insertDesc_ne_nil (x : Nat × String) (l : List (Nat × String)) :
    insertDesc x l ≠ [] := by
  cases l with
  | nil => simp [insertDesc]
  | cons y ys =>
    simp only [insertDesc]
    by_cases h : y.1 < x.1 <;> simp [h]

theorem sortDesc_eq_nil {l : List (Nat × String)} :
    sortDesc l = [] ↔ l = [] := by
  cases l with
  | nil => simp [sortDesc]
  | cons x xs =>
    simp only [sortDesc, List.foldr_cons]
    exact ⟨fun h => absurd h (insertDesc_ne_nil x _), fun h => by simp at h⟩

theorem head?_mem {α : Type} {l : List α} {p : α} (h : l.head? = some p) :
    p ∈ l := by
  cases l with
  | nil => simp at h
  | cons x xs =>
    simp only [List.head?_cons, Option.some.injEq] at h
    exact h ▸ List.mem_cons_self x xs

theorem insertDesc_pairwise {x : Nat × String} {l : List (Nat × String)}
    (h : l.Pairwise (fun a b => b.1 ≤ a.1)) :
    (insertDesc x l).Pairwise (fun a b => b.1 ≤ a.1) := by
  induction l with
  | nil => simp [insertDesc]
  | cons y ys ih =>
    rcases List.pairwise_cons.mp h with ⟨hy, hys⟩
    simp only [insertDesc]
    by_cases hlt : y.1 < x.1
    · simp only [hlt, if_true]
      refine List.pairwise_cons.mpr ⟨?_, h⟩
      intro q hq
      rcases List.mem_cons.mp hq with rfl | hq'
      · omega
      · have := hy q hq'
        omega
    · simp only [hlt, if_false]
      refine List.pairwise_cons.mpr ⟨?_, ih hys⟩
      intro q hq
      rcases mem_insertDesc.mp hq with rfl | hq'
      · omega
      · exact hy q hq'

theorem sortDesc_pairwise (l : List (Nat × String)) :
    (sortDesc l).Pairwise (fun a b => b.1 ≤ a.1) := by
  induction l with
  | nil => simp [sortDesc]
  | cons x xs ih =>
    simp only [sortDesc, List.foldr_cons] at *
    exact insertDesc_pairwise ih

theorem sortDesc_head_max {l : List (Nat × String)} {p : Nat × String}
    (hp : (sortDesc l).head? = some p) :
    p ∈ l ∧ ∀ q ∈ l, q.1 ≤ p.1 := by
  refine ⟨mem_sortDesc.mp (head?_mem hp), fun q hq => ?_⟩
  have hq' : q ∈ sortDesc l := mem_sortDesc.mpr hq
  have hpw := sortDesc_pairwise l
  cases hs : sortDesc l with
  | nil => rw [hs] at hq'; simp at hq'
  | cons h t =>
    rw [hs] at hq' hpw hp
    simp only [List.head?_cons, Option.some.injEq] at hp
    subst hp
    rcases List.mem_cons.mp hq' with rfl | hq''
    · exact le_refl _
    · exact (List.pairwise_cons.mp hpw).1 q hq''

theorem mem_mappingCandidates {p : Nat × String} {tx : BudgetTx}
    {ms : List CategoryMapping} {flow : String} :
    p ∈ mappingCandidates tx ms flow ↔
      ∃ m ∈ ms, mappingMatchesTx tx m = true ∧ mappingFlowCompat m flow = true ∧
        p = (mappingKeyLen m, stripStr m.category) := by
  simp only [mappingCandidates, List.mem_filterMap]
  constructor
  · rintro ⟨m, hm, hf⟩
    by_cases h : mappingMatchesTx tx m && mappingFlowCompat m flow
    · rw [if_pos h] at hf
      simp only [Bool.and_eq_true] at h
      exact ⟨m, hm, h.1, h.2, (Option.some.injEq _ _).mp hf.symm⟩
    · rw [if_neg h] at hf
      simp at hf
  · rintro ⟨m, hm, h1, h2, rfl⟩
    exact ⟨m, hm, by simp [h1, h2]⟩

theorem mem_mappingRelaxedCandidates {p : Nat × String} {tx : BudgetTx}
    {ms : List CategoryMapping} {flow : String} :
    p ∈ mappingRelaxedCandidates tx ms flow ↔
      ∃ m ∈ ms, mappingMatchesTx tx m = true ∧ mappingFlowCompat m flow = false ∧
        p = (mappingKeyLen m, stripStr m.category) := by
  simp only [mappingRelaxedCandidates, List.mem_filterMap]
  constructor
  · rintro ⟨m, hm, hf⟩
    by_cases h : mappingMatchesTx tx m && !mappingFlowCompat m flow
    · rw [if_pos h] at hf
      simp only [Bool.and_eq_true, Bool.not_eq_true'] at h
      exact ⟨m, hm, h.1, h.2, (Option.some.injEq _ _).mp hf.symm⟩
    · rw [if_neg h] at hf
      simp at hf
  · rintro ⟨m, hm, h1, h2, rfl⟩
    exact ⟨m, hm, by simp [h1, h2]⟩

theorem mappingCandidates_eq_nil {tx : BudgetTx} {ms : List CategoryMapping}
    {flow : String} :
    mappingCandidates tx ms flow = [] ↔
      ∀ m ∈ ms, ¬(mappingMatchesTx tx m = true ∧
        mappingFlowCompat m flow = true) := by
  constructor
  · intro h m hm hcond
    have : (mappingKeyLen m, stripStr m.category) ∈ mappingCandidates tx ms flow :=
      mem_mappingCandidates.mpr ⟨m, hm, hcond.1, hcond.2, rfl⟩
    simp [h] at this
  · intro h
    cases hc : mappingCandidates tx ms flow with
    | nil => rfl
    | cons p t =>
      have hp : p ∈ mappingCandidates tx ms flow := by simp [hc]
      rcases mem_mappingCandidates.mp hp with ⟨m, hm, h1, h2, _⟩
      exact absurd ⟨h1, h2⟩ (h m hm)

theorem mappingRelaxedCandidates_eq_nil {tx : BudgetTx}
    {ms : List CategoryMapping} {flow : String} :
    mappingRelaxedCandidates tx ms flow = [] ↔
      ∀ m ∈ ms, ¬(mappingMatchesTx tx m = true ∧
        mappingFlowCompat m flow = false) := by
  constructor
  · intro h m hm hcond
    have : (mappingKeyLen m, stripStr m.category) ∈
        mappingRelaxedCandidates tx ms flow :=
      mem_mappingRelaxedCandidates.mpr ⟨m, hm, hcond.1, hcond.2, rfl⟩
    simp [h] at this
  · intro h
    cases hc : mappingRelaxedCandidates tx ms flow with
    | nil => rfl
    | cons p t =>
      have hp : p ∈ mappingRelaxedCandidates tx ms flow := by simp [hc]
      rcases mem_mappingRelaxedCandidates.mp hp with ⟨m, hm, h1, h2, _⟩
      exact absurd ⟨h1, h2⟩ (h m hm)

theorem mappingMatchesTx_category_ne_empty {tx : BudgetTx}
    {m : CategoryMapping} (h : mappingMatchesTx tx m = true) :
    stripStr m.category ≠ "" := by
  simp only [mappingMatchesTx, Bool.and_eq_true, decide_eq_true_eq] at h
  exact h.1.2

theorem mapping_category_some_ne_empty {tx : BudgetTx}
    {ms : List CategoryMapping} {flow : String} {c : String}
    (h : mapping_category_for_tx tx ms flow = some c) : c ≠ "" := by
  unfold mapping_category_for_tx at h
  cases h1 : (sortDesc (mappingCandidates tx ms flow)).head? with
  | some p =>
    rw [h1] at h
    simp only [Option.some.injEq] at h
    rcases mem_mappingCandidates.mp (sortDesc_head_max h1).1 with ⟨m, _, hm, _, rfl⟩
    exact h ▸ mappingMatchesTx_category_ne_empty hm
  | none =>
    rw [h1] at h
    cases h2 : (sortDesc (mappingRelaxedCandidates tx ms flow)).head? with
    | some p =>
      rw [h2] at h
      simp only [Option.some.injEq] at h
      rcases mem_mappingRelaxedCandidates.mp (sortDesc_head_max h2).1 with
        ⟨m, _, hm, _, rfl⟩
      exact h ▸ mappingMatchesTx_category_ne_empty hm
    | none => rw [h2] at h; simp at h

theorem fallback_category_ne_empty (tx : BudgetTx)
    (ms : List CategoryMapping) :
    (fallback_budget_category tx ms).2.1 ≠ "" := by
  simp only [fallback_budget_category]
  cases hd : mapping_category_for_tx tx ms (txFlow tx) with
  | some mapped =>
    simpa using mapping_category_some_ne_empty hd
  | none =>
    split_ifs <;> simp

theorem resolveBudgetTx_category_ne_empty (tx : BudgetTx)
    (rows : List LlmCategoryRow) (ms : List CategoryMapping)
    (preferred : List String) :
    (resolveBudgetTx tx rows ms preferred).category ≠ "" := by
  simp only [resolveBudgetTx]
  cases hd : mapping_category_for_tx tx ms (txFlow tx) with
  | some mapped =>
    simpa using mapping_category_some_ne_empty hd
  | none =>
    split_ifs with h1 h2 h3 <;>
      simp_all [fallback_category_ne_empty tx ms]

theorem tx_match_score_currency_mismatch {doc : MatchDoc} {tx : BankTx}
    (h1 : doc.currency ≠ "") (h2 : tx.currency ≠ "")
    (h3 : upperStr doc.currency ≠ upperStr tx.currency) :
    (tx_match_score doc tx).1 = -1 := by
  simp only [tx_match_score]
  split_ifs <;> first | rfl | simp_all

theorem tx_candidate_currency_mismatch {doc : MatchDoc} {tx : BankTx}
    (h1 : doc.currency ≠ "") (h2 : tx.currency ≠ "")
    (h3 : upperStr doc.currency ≠ upperStr tx.currency) :
    tx_candidate_for_llm doc tx = false := by
  simp only [tx_candidate_for_llm]
  split_ifs <;> simp_all

theorem foldl_bestStep_score (doc : MatchDoc) (txs : List BankTx) :
    ∀ best : BestState,
      (∀ t, best.2.2.2 = some t → best.1 = (tx_match_score doc t).1) →
      ∀ t, (txs.foldl (bestStep doc) best).2.2.2 = some t →
        (txs.foldl (bestStep doc) best).1 = (tx_match_score doc t).1 := by
  induction txs with
  | nil => intro best hinv t ht; exact hinv t ht
  | cons x xs ih =>
    intro best hinv t ht
    simp only [List.foldl_cons] at ht ⊢
    refine ih (bestStep doc best x) ?_ t ht
    intro u hu
    simp only [bestStep] at hu ⊢
    split_ifs at hu ⊢ with h
    · simp only [Option.some.injEq] at hu
      subst hu
      rfl
    · exact hinv u hu

theorem bestRuleCandidate_score {doc : MatchDoc} {txs : List BankTx} {t : BankTx}
    (ht : (bestRuleCandidate doc txs).2.2.2 = some t) :
    (bestRuleCandidate doc txs).1 = (tx_match_score doc t).1 := by
  exact foldl_bestStep_score doc txs _ (by intro u hu; simp at hu) t ht

theorem llmFallbackStep_cases (doc : MatchDoc) (txs : List BankTx)
    (llm : LlmMatchVerdict) (best : BestState) :
    llmFallbackStep doc txs llm best = best ∨
      ∃ picked, llmFallbackStep doc txs llm best = llmAcceptState llm picked ∧
        tx_candidate_for_llm doc picked = true := by
  simp only [llmFallbackStep]
  split_ifs with h1 h2
  · exact Or.inl rfl
  · cases hm : llm.matched with
    | false => exact Or.inl rfl
    | true =>
      cases he : llm.external_transaction_id with
      | none => exact Or.inl rfl
      | some ext =>
        cases hf : (txs.filter (tx_candidate_for_llm doc)).find?
            (fun tx => tx.external_transaction_id == ext) with
        | none => simp [hf]
        | some picked =>
          refine Or.inr ⟨picked, by simp [hf], ?_⟩
          have hmem := List.mem_of_find?_eq_some hf
          exact (List.mem_filter.mp hmem).2
  · exact Or.inl rfl

theorem accepted_match_currency_consistent
    (doc : MatchDoc) (txs : List BankTx) (llm : LlmMatchVerdict)
    (r : BankTx × Int × String)
    (hacc : acceptedBankMatch doc txs llm = some r)
    (h1 : doc.currency ≠ "") (h2 : r.1.currency ≠ "") :
    upperStr doc.currency = upperStr r.1.currency := by
  by_contra h3
  simp only [acceptedBankMatch] at hacc
  rcases llmFallbackStep_cases doc txs llm (bestRuleCandidate doc txs) with
    hcase | ⟨picked, hpick, hcand⟩
  · rw [hcase] at hacc
    cases hb : (bestRuleCandidate doc txs).2.2.2 with
    | none => rw [hb] at hacc; simp at hacc
    | some tx =>
      rw [hb] at hacc
      by_cases hs : (bestRuleCandidate doc txs).1 < 60
      · simp [hs] at hacc
      · simp only [if_neg hs, Option.some.injEq] at hacc
        have hr : r.1 = tx := by rw [← hacc]
        have hscore := bestRuleCandidate_score hb
        have hneg : (tx_match_score doc tx).1 = -1 :=
          tx_match_score_currency_mismatch h1 (hr ▸ h2) (fun he => h3 (hr ▸ he))
        rw [hneg] at hscore
        omega
  · rw [hpick] at hacc
    have h222 : (llmAcceptState llm picked).2.2.2 = some picked := rfl
    rw [h222] at hacc
    by_cases hs : (llmAcceptState llm picked).1 < 60
    · simp [hs] at hacc
    · simp only [if_neg hs, Option.some.injEq] at hacc
      have hr : r.1 = picked := by rw [← hacc]
      have hneg : tx_candidate_for_llm doc picked = false :=
        tx_candidate_currency_mismatch h1 (hr ▸ h2) (fun he => h3 (hr ▸ he))
      rw [hcand] at hneg
      exact Bool.noConfusion hneg

theorem callLlmAux_success (responses : Nat → LlmHttpResponse) :
    ∀ (fuel a k : Nat), a ≤ k → k < a + fuel →
      (∀ i, a ≤ i → i < k → attemptFails (responses i) = true) →
      attemptFails (responses k) = false →
      callLlmAux responses a fuel =
        ⟨true, k, (List.range (k - a)).map (fun i => retryDelayTenths (a + i))⟩ := by
  intro fuel
  induction fuel with
  | zero => intro a k h1 h2 _ _; omega
  | succ f ih =>
    intro a k h1 h2 hfail hsucc
    by_cases hk : a = k
    · subst hk
      simp only [callLlmAux, hsucc]
      simp
    · have hak : a < k := lt_of_le_of_ne h1 hk
      have hfa : attemptFails (responses a) = true := hfail a le_rfl hak
      have hf0 : f ≠ 0 := by omega
      simp only [callLlmAux, hfa, if_true, hf0, if_false]
      rw [ih (a + 1) k (by omega) (by omega)
        (fun i hi1 hi2 => hfail i (by omega) hi2) hsucc]
      have hkA : k - a = (k - (a + 1)) + 1 := by omega
      rw [hkA, List.range_succ_eq_map]
      simp only [List.map_cons, List.map_map, Nat.add_zero]
      simp only [LlmCallOutcome.mk.injEq, true_and]
      congr 1
      apply List.map_congr_left
      intro i _
      simp only [Function.comp_apply]
      congr 1
      omega

theorem callLlmAux_allFail (responses : Nat → LlmHttpResponse) :
    ∀ (fuel a : Nat), 1 ≤ fuel →
      (∀ i, a ≤ i → i < a + fuel → attemptFails (responses i) = true) →
      callLlmAux responses a fuel =
        ⟨false, a + fuel - 1,
          (List.range (fuel - 1)).map (fun i => retryDelayTenths (a + i))⟩ := by
  intro fuel
  induction fuel with
  | zero => intro a h1 _; omega
  | succ f ih =>
    intro a _ hfail
    have hfa : attemptFails (responses a) = true := hfail a le_rfl (by omega)
    by_cases hf0 : f = 0
    · subst hf0
      simp [callLlmAux, hfa]
    · simp only [callLlmAux, hfa, if_true, hf0, if_false]
      rw [ih (a + 1) (by omega) (fun i hi1 hi2 => hfail i (by omega) (by omega))]
      dsimp only
      simp only [LlmCallOutcome.mk.injEq, true_and]
      refine ⟨by omega, ?_⟩
      have h2 : f + 1 - 1 = f := by omega
      rw [h2]
      conv_rhs => rw [show f = (f - 1) + 1 by omega, List.range_succ_eq_map]
      simp only [List.map_cons, List.map_map, Nat.add_zero]
      congr 1
      apply List.map_congr_left
      intro i _
      simp only [Function.comp_apply]
      congr 1
      omega

theorem tx_candidate_ignores_missing_currency (doc : MatchDoc) (tx : BankTx)
    (h : doc.currency = "" ∨ tx.currency = "") :
    tx_candidate_for_llm doc tx =
      tx_candidate_for_llm doc { tx with currency := doc.currency } := by
  rcases h with h | h <;> simp [tx_candidate_for_llm, h]

set_option maxHeartbeats 1000000 in
theorem tx_match_score_reason_not_currency (doc : MatchDoc) (tx : BankTx)
    (h : doc.currency = "" ∨ tx.currency = "") :
    (tx_match_score doc tx).2.2 ≠ "Valuta matcht niet" := by
  simp only [tx_match_score]
  split_ifs <;> first
    | decide
    | (exfalso; rcases h with h1 | h1 <;> simp [h1] at *)

/-! ## Claim theorems -/

/-- C1: for every input transaction list, a completed categorization pass
assigns each transaction a non-empty category string: each transaction
resolves via an explicit mapping, a stored LLM classification, or the
deterministic fallback (whose buckets such as "Overige inkomsten" and
"Overige uitgaven" are non-empty), including when every LLM call fails
(`rows` may be empty or arbitrary). -/
theorem budget_pass_category_nonempty
    (txs : List BudgetTx) (rows : List LlmCategoryRow)
    (mappings : List CategoryMapping) (preferred : List String) :
    ∀ row ∈ build_budget_analysis_rows txs rows mappings preferred,
      row.category ≠ "" := by
  intro row hrow
  rcases List.mem_map.mp hrow with ⟨tx, _, rfl⟩
  exact resolveBudgetTx_category_ne_empty tx rows mappings preferred

/-- Witness for `budget_pass_category_nonempty` at a concrete transaction
with no stored classifications, no mappings and no preferred categories. -/
theorem budget_pass_category_nonempty_witness :
    resolveBudgetTx c2tx [] [] [] ∈ build_budget_analysis_rows [c2tx] [] [] [] ∧
    (resolveBudgetTx c2tx [] [] []).category ≠ "" :=
  ⟨by simp [build_budget_analysis_rows],
   budget_pass_category_nonempty [c2tx] [] [] []
     (resolveBudgetTx c2tx [] [] []) (by simp [build_budget_analysis_rows])⟩

/-- C2 counterexample: a completed first pass whose LLM chunk failed is
still persisted (chunk failures do not set `llm_failed`), with child rows
and a summary starting with the chunk-failure marker.  A re-run with
identical inputs (same `source_hash`, so the stored run is found, and it
has child rows) does *not* re-merge from the stored run: `cached_failed`
sends it down the recompute path, which issues 2 LLM gateway calls (one
chunk, one summary) rather than zero. -/
theorem budget_cache_failed_run_counterexample :
    ([c2row] : List BudgetAnalysisTxRow) ≠ [] ∧
    legacyBudgetCachePath (some c2failedRun) [c2row] [c2tx] = .recompute ∧
    legacyLlmGatewayCalls
      (legacyBudgetCachePath (some c2failedRun) [c2row] [c2tx]) [c2tx] [] = 2 := by
  refine ⟨by decide, by decide, by decide⟩

/-- C2 (amended): if a categorization pass completes and is re-run with
identical inputs (equal `source_hash`), the stored run has child rows,
*and no stored summary point contains the failure marker `"fallback
actief"*`, then the second run serves the cached result and performs zero
LLM gateway calls.  (A stored run whose summary records chunk failures is
recomputed instead — see the counterexample.) -/
theorem budget_cache_hit_zero_llm_calls
    (run : BudgetAnalysisRun) (rows : List BudgetAnalysisTxRow)
    (txs : List BudgetTx) (mappings : List CategoryMapping)
    (hrows : rows ≠ [])
    (hclean : cachedRunFailed run.summaryPoints = false) :
    legacyBudgetCachePath (some run) rows txs = .useCache ∧
    legacyLlmGatewayCalls (legacyBudgetCachePath (some run) rows txs)
      txs mappings = 0 := by
  have hempty : rows.isEmpty = false := by
    cases rows with
    | nil => exact absurd rfl hrows
    | cons a l => rfl
  have hpath : legacyBudgetCachePath (some run) rows txs = .useCache := by
    simp [legacyBudgetCachePath, hempty, hclean]
  exact ⟨hpath, by rw [hpath]; rfl⟩

/-- Witness for `budget_cache_hit_zero_llm_calls` at a stored run with one
child row and a clean summary. -/
theorem budget_cache_hit_zero_llm_calls_witness :
    (([c2row] : List BudgetAnalysisTxRow) ≠ [] ∧
     cachedRunFailed c2cleanRun.summaryPoints = false) ∧
    (legacyBudgetCachePath (some c2cleanRun) [c2row] [c2tx] = .useCache ∧
     legacyLlmGatewayCalls
       (legacyBudgetCachePath (some c2cleanRun) [c2row] [c2tx]) [c2tx] [] = 0) :=
  ⟨⟨by decide, by decide⟩,
   budget_cache_hit_zero_llm_calls c2cleanRun [c2row] [c2tx] []
     (by decide) (by decide)⟩

/-- C3 counterexample: for the spec's scenario document (49.99 EUR, IBAN
`BE68539007547034`, date 2024-03-01, no structured reference, subject or
issuer) and transaction (-49.99 EUR, 2024-03-03, counterparty containing
the normalized IBAN), the scorer yields score 82 with confidence
`"medium"` — not confidence `"high"` with score ≥ 120 as claimed: with no
reference, subject or issuer there is no memo match, so the strict tier is
unreachable and the IBAN + 93-day fallback tier applies (base 80 + 2 date
bonus). -/
theorem matcher_scenario_counterexample :
    tx_match_score c3doc c3tx =
      (82, "medium", "Fallback op bedrag + IBAN + datum binnen 3 maanden") ∧
    ¬((tx_match_score c3doc c3tx).2.1 = "high" ∧
      (tx_match_score c3doc c3tx).1 ≥ 120) := by
  refine ⟨by decide, by decide⟩

/-- C3 (amended): for the scenario document and transaction, the Matcher
accepts the transaction (score 82 clears the ≥ 60 threshold) with
confidence `"medium"` and score 82, via the amount + IBAN + 93-day
fallback tier. -/
theorem matcher_scenario_amended :
    acceptedBankMatch c3doc [c3tx] llmNoVerdict = some (c3tx, 82, "medium") ∧
    tx_match_score c3doc c3tx =
      (82, "medium", "Fallback op bedrag + IBAN + datum binnen 3 maanden") ∧
    (82 : Int) ≥ 60 := by
  refine ⟨by decide, by decide, by decide⟩

/-- C4: for every document and transaction whose currency fields are both
non-empty and differ case-insensitively, the rule-based scorer returns the
rejection score -1, the LLM candidate pre-filter rejects the pair, and the
reconciliation pass never accepts that transaction as the document's match
by any path (rule-based or LLM fallback), for any model verdict. -/
theorem matcher_never_accepts_currency_mismatch
    (doc : MatchDoc) (txs : List BankTx) (llm : LlmMatchVerdict)
    (tx : BankTx) (s : Int) (conf : String)
    (h1 : doc.currency ≠ "") (h2 : tx.currency ≠ "")
    (h3 : upperStr doc.currency ≠ upperStr tx.currency) :
    (tx_match_score doc tx).1 = -1 ∧
    tx_candidate_for_llm doc tx = false ∧
    acceptedBankMatch doc txs llm ≠ some (tx, s, conf) := by
  refine ⟨tx_match_score_currency_mismatch h1 h2 h3,
          tx_candidate_currency_mismatch h1 h2 h3, fun hacc => ?_⟩
  exact h3 (accepted_match_currency_consistent doc txs llm (tx, s, conf) hacc h1 h2)

/-- Witness for `matcher_never_accepts_currency_mismatch`: an EUR document
against a USD copy of the matching transaction (the EUR twin is accepted
instead). -/
theorem matcher_never_accepts_currency_mismatch_witness :
    (c3doc.currency ≠ "" ∧ c4txUsd.currency ≠ "" ∧
     upperStr c3doc.currency ≠ upperStr c4txUsd.currency) ∧
    ((tx_match_score c3doc c4txUsd).1 = -1 ∧
     tx_candidate_for_llm c3doc c4txUsd = false ∧
     acceptedBankMatch c3doc [c4txUsd, c4txEur] llmNoVerdict ≠
       some (c4txUsd, 82, "medium")) :=
  ⟨⟨by decide, by decide, by decide⟩,
   matcher_never_accepts_currency_mismatch c3doc [c4txUsd, c4txEur]
     llmNoVerdict c4txUsd 82 "medium" (by decide) (by decide) (by decide)⟩

/-- C5 counterexample: a non-retryable failure does *not* propagate
immediately: with an HTTP 400 response (not a retryable status) on the
first attempt and a success on the second, `_call_llm` performs a second
request and returns success after sleeping 0.8 s — every exception raised
inside an attempt, including `raise_for_status()` on a 4xx and JSON
parse errors, is caught by the same handler and retried. -/
theorem llm_retry_counterexample :
    shouldRetryStatus 400 = false ∧
    c5responses 1 = ⟨400, true⟩ ∧
    attemptFails (c5responses 1) = true ∧
    call_llm c5responses 3 = ⟨true, 2, [8]⟩ := by
  refine ⟨by decide, by decide, by decide, by decide⟩

/-- C5 (amended): `_call_llm` retries *every* failed attempt — regardless
of status class or JSON validity — up to `max_retries` (default 3) total
attempts, sleeping `min(6.0, 0.8 · 2^(i-1))` seconds after the i-th failed
attempt (0.8 s then 1.6 s for the default three attempts); the error
propagates only after all attempts fail.  The retryable-status
classification (408/409/429/5xx) affects only the error message. -/
theorem llm_retry_amended
    (responses : Nat → LlmHttpResponse) (k maxRetries : Nat)
    (h1 : 1 ≤ k) (h2 : k ≤ maxRetries)
    (h3 : ((List.range (k - 1)).all
      (fun i => attemptFails (responses (i + 1)))) = true)
    (h4 : attemptFails (responses k) = false) :
    call_llm responses maxRetries =
      ⟨true, k, (List.range (k - 1)).map (fun i => retryDelayTenths (1 + i))⟩ ∧
    (∀ (resp2 : Nat → LlmHttpResponse) (mr : Nat), 1 ≤ mr →
      ((List.range mr).all (fun i => attemptFails (resp2 (i + 1)))) = true →
      call_llm resp2 mr =
        ⟨false, mr, (List.range (mr - 1)).map (fun i => retryDelayTenths (1 + i))⟩) := by
  constructor
  · have hfail : ∀ i, 1 ≤ i → i < k → attemptFails (responses i) = true := by
      intro i hi1 hik
      have := List.all_eq_true.mp h3 (i - 1) (List.mem_range.mpr (by omega))
      simpa [Nat.sub_add_cancel hi1] using this
    have := callLlmAux_success responses maxRetries 1 k h1 (by omega) hfail h4
    simpa [call_llm] using this
  · intro resp2 mr hmr hall
    have hfail : ∀ i, 1 ≤ i → i < 1 + mr → attemptFails (resp2 i) = true := by
      intro i hi1 hik
      have := List.all_eq_true.mp hall (i - 1) (List.mem_range.mpr (by omega))
      simpa [Nat.sub_add_cancel hi1] using this
    have := callLlmAux_allFail resp2 mr 1 hmr (fun i a b => hfail i a b)
    rw [call_llm, this]
    congr 1
    omega

/-- Witness for `llm_retry_amended`: a 400 then a success (retried across
the non-retryable failure), and two straight 503 failures exhausting
`max_retries = 2`. -/
theorem llm_retry_amended_witness :
    (1 ≤ 2 ∧ 2 ≤ 3 ∧
     ((List.range (2 - 1)).all
       (fun i => attemptFails (c5responses (i + 1)))) = true ∧
     attemptFails (c5responses 2) = false) ∧
    call_llm c5responses 3 =
      ⟨true, 2, (List.range (2 - 1)).map (fun i => retryDelayTenths (1 + i))⟩ ∧
    call_llm c5responsesAllFail 2 =
      ⟨false, 2, (List.range (2 - 1)).map (fun i => retryDelayTenths (1 + i))⟩ :=
  ⟨⟨by decide, by decide, by decide, by decide⟩,
   (llm_retry_amended c5responses 2 3 (by decide) (by decide) (by decide)
     (by decide)).1,
   (llm_retry_amended c5responses 2 3 (by decide) (by decide) (by decide)
     (by decide)).2 c5responsesAllFail 2 (by decide) (by decide)⟩

/-- C6: when a stored `AnalysisRun` with the matching `source_hash` exists
but has zero child rows while the current transaction input is non-empty,
the categorization pass discards that cached run and takes the normal
recompute path.  The decision function is total — there is no error
outcome: the corruption is never surfaced to the caller. -/
theorem corrupt_cache_recomputed
    (run : BudgetAnalysisRun) (rows : List BudgetAnalysisTxRow)
    (txs : List BudgetTx) (htxs : txs ≠ []) (hrows : rows = []) :
    legacyBudgetCachePath (some run) rows txs = .recompute := by
  subst hrows
  have hne : txs.isEmpty = false := by
    cases txs with
    | nil => exact absurd rfl htxs
    | cons a l => rfl
  simp [legacyBudgetCachePath, hne]

/-- Witness for `corrupt_cache_recomputed`: a clean stored run with no
child rows against a non-empty transaction payload. -/
theorem corrupt_cache_recomputed_witness :
    (([c2tx] : List BudgetTx) ≠ [] ∧ ([] : List BudgetAnalysisTxRow) = []) ∧
    legacyBudgetCachePath (some c2cleanRun) [] [c2tx] = .recompute :=
  ⟨⟨by decide, rfl⟩,
   corrupt_cache_recomputed c2cleanRun [] [c2tx] (by decide) rfl⟩

/-- C7 counterexample: with only an *expense*-flow mapping
(`keyword "huur" → "Huur"`) and an income transaction whose text contains
the keyword, `_mapping_category_for_tx` returns `some "Huur"` although no
flow-compatible mapping matches — the relaxed-candidates fallback applies
the flow-incompatible mapping instead of returning no category. -/
theorem mapping_flow_counterexample :
    mapping_category_for_tx c7tx [c7mapping] "income" = some "Huur" ∧
    mappingMatchesTx c7tx c7mapping = true ∧
    mappingFlowCompat c7mapping "income" = false := by
  refine ⟨by decide, by decide, by decide⟩

/-- C7 (amended): the explicit-mapping step returns the category of the
longest matching keyword among flow-compatible mappings when one matches;
when no flow-compatible mapping matches but some mapping's keyword still
matches, it returns the category of the longest such flow-incompatible
match instead; it returns no category only when no mapping keyword matches
at all. -/
theorem mapping_resolution_amended (tx : BudgetTx)
    (ms : List CategoryMapping) (flow : String) :
    (mapping_category_for_tx tx ms flow = none ↔
      ∀ m ∈ ms, mappingMatchesTx tx m = false) ∧
    ((∃ m ∈ ms, mappingMatchesTx tx m = true ∧ mappingFlowCompat m flow = true) →
      ∃ m ∈ ms, mappingMatchesTx tx m = true ∧ mappingFlowCompat m flow = true ∧
        mapping_category_for_tx tx ms flow = some (stripStr m.category) ∧
        ∀ m' ∈ ms, mappingMatchesTx tx m' = true →
          mappingFlowCompat m' flow = true →
          mappingKeyLen m' ≤ mappingKeyLen m) ∧
    ((∀ m ∈ ms, ¬(mappingMatchesTx tx m = true ∧ mappingFlowCompat m flow = true)) →
      (∃ m ∈ ms, mappingMatchesTx tx m = true) →
      ∃ m ∈ ms, mappingMatchesTx tx m = true ∧
        mapping_category_for_tx tx ms flow = some (stripStr m.category) ∧
        ∀ m' ∈ ms, mappingMatchesTx tx m' = true →
          mappingKeyLen m' ≤ mappingKeyLen m) := by
  refine ⟨?_, ?_, ?_⟩
  · constructor
    · intro hnone m hm
      by_contra hne
      have hmt : mappingMatchesTx tx m = true := by
        cases hmm : mappingMatchesTx tx m with
        | true => rfl
        | false => exact absurd hmm hne
      unfold mapping_category_for_tx at hnone
      cases h1 : (sortDesc (mappingCandidates tx ms flow)).head? with
      | some p => rw [h1] at hnone; simp at hnone
      | none =>
        rw [h1] at hnone
        cases h2 : (sortDesc (mappingRelaxedCandidates tx ms flow)).head? with
        | some p => rw [h2] at hnone; simp at hnone
        | none =>
          have hc1 : mappingCandidates tx ms flow = [] :=
            sortDesc_eq_nil.mp (List.head?_eq_none_iff.mp h1)
          have hc2 : mappingRelaxedCandidates tx ms flow = [] :=
            sortDesc_eq_nil.mp (List.head?_eq_none_iff.mp h2)
          cases hfc : mappingFlowCompat m flow with
          | true =>
            exact absurd ⟨hmt, hfc⟩ (mappingCandidates_eq_nil.mp hc1 m hm)
          | false =>
            exact absurd ⟨hmt, hfc⟩ (mappingRelaxedCandidates_eq_nil.mp hc2 m hm)
    · intro hall
      have hc1 : mappingCandidates tx ms flow = [] := by
        rw [mappingCandidates_eq_nil]
        intro m hm ⟨h1, _⟩
        rw [hall m hm] at h1
        exact Bool.noConfusion h1
      have hc2 : mappingRelaxedCandidates tx ms flow = [] := by
        rw [mappingRelaxedCandidates_eq_nil]
        intro m hm ⟨h1, _⟩
        rw [hall m hm] at h1
        exact Bool.noConfusion h1
      unfold mapping_category_for_tx
      rw [hc1, hc2]
      rfl
  · rintro ⟨m0, hm0, hmt0, hfc0⟩
    have hne : mappingCandidates tx ms flow ≠ [] := by
      intro hnil
      exact absurd ⟨hmt0, hfc0⟩ (mappingCandidates_eq_nil.mp hnil m0 hm0)
    have hsne : sortDesc (mappingCandidates tx ms flow) ≠ [] := by
      intro hs
      exact hne (sortDesc_eq_nil.mp hs)
    cases hh : (sortDesc (mappingCandidates tx ms flow)).head? with
    | none => exact absurd (List.head?_eq_none_iff.mp hh) hsne
    | some p =>
      rcases sortDesc_head_max hh with ⟨hpmem, hpmax⟩
      rcases mem_mappingCandidates.mp hpmem with ⟨m, hm, hmt, hfc, rfl⟩
      refine ⟨m, hm, hmt, hfc, ?_, ?_⟩
      · unfold mapping_category_for_tx
        rw [hh]
      · intro m' hm' hmt' hfc'
        have : (mappingKeyLen m', stripStr m'.category) ∈
            mappingCandidates tx ms flow :=
          mem_mappingCandidates.mpr ⟨m', hm', hmt', hfc', rfl⟩
        exact hpmax _ this
  · intro hnocompat ⟨m0, hm0, hmt0⟩
    have hc1 : mappingCandidates tx ms flow = [] := by
      rw [mappingCandidates_eq_nil]
      exact hnocompat
    have hne : mappingRelaxedCandidates tx ms flow ≠ [] := by
      intro hnil
      have hfc0 : mappingFlowCompat m0 flow = false := by
        cases hf : mappingFlowCompat m0 flow with
        | true => exact absurd ⟨hmt0, hf⟩ (hnocompat m0 hm0)
        | false => rfl
      exact absurd ⟨hmt0, hfc0⟩ (mappingRelaxedCandidates_eq_nil.mp hnil m0 hm0)
    have hsne : sortDesc (mappingRelaxedCandidates tx ms flow) ≠ [] := by
      intro hs
      exact hne (sortDesc_eq_nil.mp hs)
    have hh1 : (sortDesc (mappingCandidates tx ms flow)).head? = none := by
      rw [hc1]
      rfl
    cases hh : (sortDesc (mappingRelaxedCandidates tx ms flow)).head? with
    | none => exact absurd (List.head?_eq_none_iff.mp hh) hsne
    | some p =>
      rcases sortDesc_head_max hh with ⟨hpmem, hpmax⟩
      rcases mem_mappingRelaxedCandidates.mp hpmem with ⟨m, hm, hmt, hfc, rfl⟩
      refine ⟨m, hm, hmt, ?_, ?_⟩
      · unfold mapping_category_for_tx
        rw [hh1, hh]
      · intro m' hm' hmt'
        have hfc' : mappingFlowCompat m' flow = false := by
          cases hf : mappingFlowCompat m' flow with
          | true => exact absurd ⟨hmt', hf⟩ (hnocompat m' hm')
          | false => rfl
        have : (mappingKeyLen m', stripStr m'.category) ∈
            mappingRelaxedCandidates tx ms flow :=
          mem_mappingRelaxedCandidates.mpr ⟨m', hm', hmt', hfc', rfl⟩
        exact hpmax _ this

/-- Witness for `mapping_resolution_amended`: with both an income-flow and
an expense-flow matching mapping, the income transaction resolves to the
flow-compatible one. -/
theorem mapping_resolution_amended_witness :
    (∃ m ∈ [c7mapping, c7mappingIncome], mappingMatchesTx c7tx m = true ∧
      mappingFlowCompat m "income" = true) ∧
    (∃ m ∈ [c7mapping, c7mappingIncome], mappingMatchesTx c7tx m = true ∧
      mappingFlowCompat m "income" = true ∧
      mapping_category_for_tx c7tx [c7mapping, c7mappingIncome] "income" =
        some (stripStr m.category) ∧
      ∀ m' ∈ [c7mapping, c7mappingIncome], mappingMatchesTx c7tx m' = true →
        mappingFlowCompat m' "income" = true →
        mappingKeyLen m' ≤ mappingKeyLen m) :=
  ⟨by decide,
   (mapping_resolution_amended c7tx [c7mapping, c7mappingIncome] "income").2.1
     (by decide)⟩

/-- C8 (code bug): the second-stage duplicate hash never collapses
whitespace.  `_normalize_ocr_text_for_hash` uses `re.sub(r"\\s+", " ", t)`
— the raw string `r"\\s+"` is an *escaped* backslash followed by `s+`, a
pattern matching a literal backslash followed by letters `s`, not the
whitespace class `\s`.  Two extracted texts that are equal after
whitespace collapsing and lower-casing therefore hash differently whenever
their internal spacing differs, and the later document is *not* flagged as
a duplicate, contradicting the documented normalization; the last conjunct
shows what the shipped pattern actually rewrites. -/
theorem ocr_hash_whitespace_bug :
    specOcrNormalize "Invoice  42" = specOcrNormalize "Invoice 42" ∧
    normalize_ocr_text_for_hash "Invoice  42" ≠
      normalize_ocr_text_for_hash "Invoice 42" ∧
    ocr_text_hash "Invoice  42" ≠ ocr_text_hash "Invoice 42" ∧
    ocrDuplicateDetected "Invoice  42" "Invoice 42" = false ∧
    normalize_ocr_text_for_hash "a\\ssb" = "a b" := by
  refine ⟨by decide, by decide, by decide, by decide, by decide⟩

/-- C9: the startup recovery sets every `AsyncJob` whose status is
`"running"` to `"failed"` with error `"Server restart: job interrupted"`
and a `finished_at` timestamp, leaves jobs in every other status in place
unchanged, and leaves no job `"running"` — interrupted jobs are never
resumed. -/
theorem startup_marks_running_failed
    (now : Int) (jobs : List AsyncJobRow) (j : AsyncJobRow) (hj : j ∈ jobs) :
    (j.status = "running" →
      { j with status := "failed",
               error := some "Server restart: job interrupted",
               finished_at := some now } ∈
        startup_guardrails_and_cleanup now jobs) ∧
    (j.status ≠ "running" → j ∈ startup_guardrails_and_cleanup now jobs) ∧
    (∀ j' ∈ startup_guardrails_and_cleanup now jobs, j'.status ≠ "running") := by
  refine ⟨?_, ?_, ?_⟩
  · intro hrun
    refine List.mem_map.mpr ⟨j, hj, ?_⟩
    simp [startupCleanupJob, hrun]
  · intro hnot
    refine List.mem_map.mpr ⟨j, hj, ?_⟩
    simp [startupCleanupJob, hnot]
  · intro j' hj'
    rcases List.mem_map.mp hj' with ⟨j0, _, rfl⟩
    simp only [startupCleanupJob]
    split_ifs with h
    · simp
    · simpa using h

/-- Witness for `startup_marks_running_failed`: a running job flips to
failed with the restart message; a queued job is untouched. -/
theorem startup_marks_running_failed_witness :
    (c9runningJob ∈ [c9runningJob, c9queuedJob] ∧
     c9runningJob.status = "running" ∧
     { c9runningJob with status := "failed",
                         error := some "Server restart: job interrupted",
                         finished_at := some 5 } ∈
       startup_guardrails_and_cleanup 5 [c9runningJob, c9queuedJob]) ∧
    (c9queuedJob.status ≠ "running" ∧
     c9queuedJob ∈ startup_guardrails_and_cleanup 5 [c9runningJob, c9queuedJob]) :=
  ⟨⟨by decide, by decide,
    (startup_marks_running_failed 5 [c9runningJob, c9queuedJob] c9runningJob
      (by decide)).1 (by decide)⟩,
   ⟨by decide,
    (startup_marks_running_failed 5 [c9runningJob, c9queuedJob] c9queuedJob
      (by decide)).2.1 (by decide)⟩⟩

/-- C10 (implicit): the matcher's currency rejection applies only when the
document and the transaction both carry a non-empty currency.  When either
side's currency is missing, the scorer never produces the currency
rejection, the LLM candidate pre-filter behaves exactly as if the
transaction carried the document's own currency, and a document with a
currency set is in fact matched (score 82, medium) against a transaction
with no currency at all, on amount, date and IBAN evidence alone. -/
theorem currency_check_requires_both_sides
    (doc : MatchDoc) (tx : BankTx) (h : doc.currency = "" ∨ tx.currency = "") :
    (tx_match_score doc tx).2.2 ≠ "Valuta matcht niet" ∧
    tx_candidate_for_llm doc tx =
      tx_candidate_for_llm doc { tx with currency := doc.currency } ∧
    acceptedBankMatch c3doc [c10txNoCurrency] llmNoVerdict =
      some (c10txNoCurrency, 82, "medium") := by
  refine ⟨tx_match_score_reason_not_currency doc tx h,
          tx_candidate_ignores_missing_currency doc tx h, by decide⟩

/-- Witness for `currency_check_requires_both_sides` at the EUR document
and the currency-less transaction. -/
theorem currency_check_requires_both_sides_witness :
    (c3doc.currency = "" ∨ c10txNoCurrency.currency = "") ∧
    ((tx_match_score c3doc c10txNoCurrency).2.2 ≠ "Valuta matcht niet" ∧
     tx_candidate_for_llm c3doc c10txNoCurrency =
       tx_candidate_for_llm c3doc
         { c10txNoCurrency with currency := c3doc.currency } ∧
     acceptedBankMatch c3doc [c10txNoCurrency] llmNoVerdict =
       some (c10txNoCurrency, 82, "medium")) :=
  ⟨by decide,
   currency_check_requires_both_sides c3doc c10txNoCurrency (by decide)⟩
